import Mathlib

/-!
Shallow embedding of the SMS message store in `src/main.py` (FastAPI + SQLite).

The persisted table `sms_messages` is modelled as a list of rows kept in
insertion order (SQLite rowid order), together with the next AUTOINCREMENT id.
Each HTTP handler body is translated into a pure Lean function over this state;
SQL queries are translated clause by clause (WHERE = filter, ORDER BY = sort,
LIMIT/OFFSET with SQLite semantics: a negative LIMIT means "no limit", a
negative OFFSET behaves like 0).

`ORDER BY date DESC` / `ORDER BY date ASC` are modelled as stable sorts on
`date` alone: SQLite leaves the relative order of rows with equal dates to
the engine, and no theorem below relies on a particular tie order.

Each handler is modelled in two stages. The query/commit stage
(`get_messages`, `get_message`, `create_message`, `get_conversation`, ...)
produces the rows the cursor fetches and the table state the handler
commits. The response stage then builds one JSON dict per fetched row; that
dict's `device_id` entry evaluates `row.get("device_id", "unknown")`, and
`sqlite3.Row` has no attribute `get`, so the expression raises
`AttributeError` unconditionally — the handler surfaces HTTP 500 instead of
the rows whenever at least one dict is built. `buildResponse`,
`buildResponses` and the `*_response` functions model this error path.
-/

namespace SmsServer

/-- The Pydantic model `SmsMessage` of src/main.py lines 22-28: the parsed
request body of the create endpoints. `read` has default `False` there;
`parseRequest` below applies that default. -/
structure SmsMessage where
  address : String
  body : String
  date : Int
  read : Bool
  type : Int
  device_id : String
deriving DecidableEq, Repr

/-- A raw creation request as sent on the wire, where the `read` field may be
omitted (`none`). Pydantic fills the declared default `False` for an omitted
field; `parseRequest` performs exactly that defaulting. -/
structure SmsCreateRequest where
  address : String
  body : String
  date : Int
  read : Option Bool
  type : Int
  device_id : String
deriving DecidableEq, Repr

/-- Pydantic validation of a request body against the `SmsMessage` model:
every declared field is copied, and an omitted `read` becomes the declared
default `False` (src/main.py line 26). -/
def parseRequest (r : SmsCreateRequest) : SmsMessage :=
  { address := r.address
    body := r.body
    date := r.date
    read := r.read.getD false
    type := r.type
    device_id := r.device_id }

/-- One stored row of the `sms_messages` table (columns of the CREATE TABLE in
`init_db` plus the migrated `device_id` column), which is also the shape of the
`SmsResponse` JSON object (src/main.py lines 30-38). -/
structure Row where
  id : Nat
  address : String
  body : String
  date : Int
  read : Bool
  type : Int
  device_id : String
  created_at : String
deriving DecidableEq, Repr

/-- The `StatsResponse` model of src/main.py lines 40-44. -/
structure StatsResponse where
  total_messages : Nat
  unread_messages : Nat
  received_messages : Nat
  sent_messages : Nat
deriving DecidableEq, Repr

/-- One element of the `/api/conversations` response (src/main.py
lines 733-740). -/
structure Conversation where
  address : String
  last_message_date : Int
  message_count : Nat
  unread_count : Nat
deriving DecidableEq, Repr

/-- The state of the `sms_messages` table: the rows in rowid order and the next
AUTOINCREMENT value. -/
structure DB where
  rows : List Row
  nextId : Nat
deriving DecidableEq, Repr

/-- A freshly initialized database: no rows, AUTOINCREMENT starts at 1. -/
def emptyDB : DB := { rows := [], nextId := 1 }

/-- Well-formedness maintained by SQLite for `id INTEGER PRIMARY KEY
AUTOINCREMENT`: rowids are strictly increasing in insertion order and below
the next value to be assigned. -/
def DB.WF (db : DB) : Prop :=
  db.rows.Pairwise (fun a b => a.id < b.id) ∧ ∀ r ∈ db.rows, r.id < db.nextId

/-- One `INSERT INTO sms_messages (address, body, date, read, type, device_id)
VALUES (?, ?, ?, ?, ?, ?)`: the row gets the next AUTOINCREMENT id and
`created_at` from the column default `CURRENT_TIMESTAMP`, given here as the
`now` argument. Returns the inserted row (what re-fetching by `lastrowid`
yields) and the new table state. -/
def insert_row (db : DB) (m : SmsMessage) (now : String) : Row × DB :=
  let r : Row :=
    { id := db.nextId
      address := m.address
      body := m.body
      date := m.date
      read := m.read
      type := m.type
      device_id := m.device_id
      created_at := now }
  (r, { rows := db.rows ++ [r], nextId := db.nextId + 1 })

/-- The insert/commit/re-fetch stage of `POST /api/messages` (src/main.py
lines 595-611): insert one row, commit, re-fetch it by `lastrowid`. Building
the response dict from the fetched row (lines 613-622) raises AttributeError;
`create_message_response` models the full handler. -/
def create_message (db : DB) (m : SmsMessage) (now : String) : Row × DB :=
  insert_row db m now

/-- `POST /api/messages/bulk` (src/main.py lines 624-639): `executemany` runs
the same INSERT once per message, in input order, inside one implicit
transaction committed at line 637; the response carries `len(messages)`. -/
def create_messages_bulk (db : DB) (msgs : List SmsMessage) (now : String) :
    DB × Nat :=
  (msgs.foldl (fun d m => (insert_row d m now).2) db, msgs.length)

/-- The persisted state left by `POST /api/messages/bulk` when the storage
layer faults before the single `conn.commit()` at src/main.py line 637: the
`executemany` inserts all belong to one implicit sqlite3 transaction, the
exception propagates past the commit, and `get_db` closes the connection,
rolling the uncommitted transaction back, so the committed table is exactly
the one from before the call. -/
def create_messages_bulk_fault (db : DB) (_msgs : List SmsMessage) : DB := db

/-- The fetch stage of `GET /api/messages/{id}` (src/main.py lines 641-650):
`SELECT * FROM sms_messages WHERE id = ?` with `fetchone`; `none` models the
404 "Message not found" branch. Building the response dict from a found row
(lines 652-661) raises AttributeError; `get_message_response` models the
full handler. -/
def get_message (db : DB) (message_id : Nat) : Option Row :=
  db.rows.find? (fun r => r.id == message_id)

/-- `DELETE /api/messages/{id}` (src/main.py lines 663-674): `DELETE FROM
sms_messages WHERE id = ?`; returns the new state and `cursor.rowcount`, the
number of rows removed. `rowcount = 0` is the 404 branch. -/
def delete_message (db : DB) (message_id : Nat) : DB × Nat :=
  let remaining := db.rows.filter (fun r => r.id != message_id)
  ({ db with rows := remaining }, db.rows.length - remaining.length)

/-- `DELETE /api/messages` (src/main.py lines 705-713): `DELETE FROM
sms_messages`; returns the emptied state and the number of rows removed. -/
def delete_all_messages (db : DB) : DB × Nat :=
  ({ db with rows := [] }, db.rows.length)

/-- The WHERE clause built in `get_messages` (src/main.py lines 563-572):
`AND type = ?` when a type filter is present, and `AND read = ?` with
`0 if unread else 1` when an unread filter is present. -/
def rowMatches (type : Option Int) (unread : Option Bool) (r : Row) : Bool :=
  (match type with
   | some t => r.type == t
   | none => true) &&
  (match unread with
   | some u => r.read == (if u then false else true)
   | none => true)

/-- The comparison behind `ORDER BY date DESC`: later dates first. SQLite
leaves the relative order of rows with equal dates unspecified; the model's
stable sort keeps equal dates in rowid order, and no theorem relies on that
choice. -/
def rowLeDesc (a b : Row) : Prop := b.date ≤ a.date

instance : DecidableRel rowLeDesc := fun a b => by
  unfold rowLeDesc; infer_instance

/-- The comparison behind `ORDER BY date ASC` in the conversation view:
earlier dates first, equal dates left to the engine as above. -/
def rowLeAsc (a b : Row) : Prop := a.date ≤ b.date

instance : DecidableRel rowLeAsc := fun a b => by
  unfold rowLeAsc; infer_instance

/-- `LIMIT ? OFFSET ?` with SQLite semantics: skip `offset` rows (a negative
offset behaves like 0), then take `limit` rows unless `limit` is negative,
which means no limit. -/
def applyLimitOffset (limit offset : Int) (l : List Row) : List Row :=
  let dropped := l.drop offset.toNat
  if limit < 0 then dropped else dropped.take limit.toNat

/-- The query stage of `GET /api/messages` (src/main.py lines 552-578):
`SELECT * FROM sms_messages WHERE 1=1 [AND type = ?] [AND read = ?] ORDER BY
date DESC LIMIT ? OFFSET ?`; these are the rows `fetchall` yields. Defaults
at the endpoint are `limit=100`, `offset=0` and both filters absent. The
response loop over these rows (lines 580-593) raises AttributeError on the
first row; `get_messages_response` models the full handler. -/
def get_messages (db : DB) (limit offset : Int) (type : Option Int)
    (unread : Option Bool) : List Row :=
  applyLimitOffset limit offset
    (List.insertionSort rowLeDesc (db.rows.filter (rowMatches type unread)))

/-- `GET /api/stats` (src/main.py lines 676-703): four COUNT queries over the
whole table: `COUNT(*)`, `WHERE read = 0`, `WHERE type = 1`, `WHERE type = 2`. -/
def get_statistics (db : DB) : StatsResponse :=
  { total_messages := db.rows.length
    unread_messages := db.rows.countP (fun r => r.read == false)
    received_messages := db.rows.countP (fun r => r.type == 1)
    sent_messages := db.rows.countP (fun r => r.type == 2) }

/-- `MAX(date)` over a group of rows (0 only on the empty list, which GROUP BY
never produces). -/
def maxDate : List Row → Int
  | [] => 0
  | [r] => r.date
  | r :: rest => max r.date (maxDate rest)

/-- The conversation order produced by `ORDER BY last_message_date DESC`. -/
def convLe (a b : Conversation) : Prop :=
  b.last_message_date ≤ a.last_message_date

instance : DecidableRel convLe := fun a b => by
  unfold convLe; infer_instance

instance : IsTotal Conversation convLe where
  total a b := (le_total b.last_message_date a.last_message_date).imp id id

instance : IsTrans Conversation convLe where
  trans _ _ _ hab hbc := le_trans hbc hab

/-- The aggregate row GROUP BY produces for one address: `MAX(date)`,
`COUNT(*)`, and `SUM(CASE WHEN read = 0 THEN 1 ELSE 0 END)` over the rows
with that address. -/
def convOf (db : DB) (a : String) : Conversation :=
  let msgs := db.rows.filter (fun r => r.address == a)
  { address := a
    last_message_date := maxDate msgs
    message_count := msgs.length
    unread_count := msgs.countP (fun r => r.read == false) }

/-- `GET /api/conversations` (src/main.py lines 715-742): `SELECT address,
MAX(date), COUNT(*), SUM(CASE WHEN read = 0 THEN 1 ELSE 0 END) FROM
sms_messages GROUP BY address ORDER BY last_message_date DESC`. GROUP BY
emits one group per distinct `address` value present in the table. -/
def get_conversations (db : DB) : List Conversation :=
  List.insertionSort convLe ((db.rows.map Row.address).dedup.map (convOf db))

/-- The query stage of `GET /api/conversation/{address}` (src/main.py lines
744-756): `SELECT * FROM sms_messages WHERE address = ? ORDER BY date ASC`.
The comparison is SQLite's default BINARY comparison on TEXT: exact,
case-sensitive string equality. The response loop over these rows (lines
758-771) raises AttributeError on the first row; `get_conversation_response`
models the full handler. -/
def get_conversation (db : DB) (address : String) : List Row :=
  List.insertionSort rowLeAsc (db.rows.filter (fun r => r.address == address))

/-- A Python exception escaping a handler, surfaced to the client as a
generic HTTP 500. -/
inductive PyError where
  | attributeError
deriving DecidableEq, Repr

/-- The expression `row.get("device_id", "unknown")` at src/main.py lines
589, 620, 659 and 767: the connection's row factory is `sqlite3.Row`
(line 50), and `sqlite3.Row` has no attribute `get`, so evaluating this
expression raises `AttributeError` unconditionally — no field value and no
default is ever produced. -/
def rowGetDeviceId (_r : Row) : Except PyError String :=
  Except.error PyError.attributeError

/-- Building one response dict from a fetched row: every field is copied by
`row["..."]` access except `device_id`, whose entry evaluates
`row.get("device_id", "unknown")` and therefore raises. -/
def buildResponse (r : Row) : Except PyError Row :=
  match rowGetDeviceId r with
  | Except.error e => Except.error e
  | Except.ok d => Except.ok { r with device_id := d }

/-- The `for row in rows: messages.append({...})` response loop shared by the
list and conversation handlers: each fetched row becomes a response dict in
order, and the first dict construction that raises aborts the handler. -/
def buildResponses : List Row → Except PyError (List Row)
  | [] => Except.ok []
  | r :: rest =>
    match buildResponse r with
    | Except.error e => Except.error e
    | Except.ok x =>
      match buildResponses rest with
      | Except.error e => Except.error e
      | Except.ok xs => Except.ok (x :: xs)

/-- The full `GET /api/messages` handler (src/main.py lines 552-593): the
query stage followed by the response loop. -/
def get_messages_response (db : DB) (limit offset : Int) (type : Option Int)
    (unread : Option Bool) : Except PyError (List Row) :=
  buildResponses (get_messages db limit offset type unread)

/-- The full `GET /api/messages/{id}` handler (src/main.py lines 641-661):
`Except.ok none` is the 404 "Message not found" branch (a typed HTTP error,
not a crash); a found row goes through response building. -/
def get_message_response (db : DB) (message_id : Nat) :
    Except PyError (Option Row) :=
  match get_message db message_id with
  | none => Except.ok none
  | some r =>
    match buildResponse r with
    | Except.error e => Except.error e
    | Except.ok x => Except.ok (some x)

/-- The full `POST /api/messages` handler (src/main.py lines 595-622): the
insert is committed at line 606 before the response dict is built, so the
table state advances even though the response raises. -/
def create_message_response (db : DB) (m : SmsMessage) (now : String) :
    Except PyError Row × DB :=
  (buildResponse (create_message db m now).1, (create_message db m now).2)

/-- The full `GET /api/conversation/{address}` handler (src/main.py lines
744-771): the query stage followed by the response loop. -/
def get_conversation_response (db : DB) (address : String) :
    Except PyError (List Row) :=
  buildResponses (get_conversation db address)

/-- One on-disk row as seen by schema initialization: `device_id` is `none`
when the column does not exist yet in the table the row lives in. -/
structure FileRow where
  id : Nat
  address : String
  body : String
  date : Int
  read : Bool
  type : Int
  created_at : String
  device_id : Option String
deriving DecidableEq, Repr

/-- The on-disk database file as seen by `init_db`: whether the
`sms_messages` table exists, whether its schema has the `device_id` column
(the `PRAGMA table_info` inspection), and the stored rows. -/
structure DBFile where
  table_exists : Bool
  has_device_id : Bool
  frows : List FileRow
deriving DecidableEq, Repr

/-- `init_db` (src/main.py lines 57-109): `CREATE TABLE IF NOT EXISTS`
(the CREATE statement does not include `device_id`), then `PRAGMA
table_info` and, when `device_id` is absent, `ALTER TABLE sms_messages ADD
COLUMN device_id TEXT NOT NULL DEFAULT 'unknown'`, which backfills every
existing row with the sentinel `"unknown"`. Index creation
(`CREATE INDEX IF NOT EXISTS`) does not change rows or columns. -/
def init_db (f : DBFile) : DBFile :=
  let f1 := if f.table_exists then f
            else { table_exists := true, has_device_id := false, frows := [] }
  if f1.has_device_id then f1
  else { f1 with
         has_device_id := true
         frows := f1.frows.map (fun r => { r with device_id := some "unknown" }) }

/-- One request against the API surface of src/main.py (the endpoints that
touch the message table). -/
inductive ApiRequest where
  | listMessages (limit offset : Int) (type : Option Int) (unread : Option Bool)
  | createOne (req : SmsCreateRequest)
  | createBulk (reqs : List SmsCreateRequest)
  | getOne (message_id : Nat)
  | deleteOne (message_id : Nat)
  | deleteAll
  | stats
  | conversations
  | conversation (address : String)
deriving DecidableEq, Repr

/-- The body of an HTTP reply from those endpoints. -/
inductive ApiReply where
  | messages (l : List Row)
  | message (r : Row)
  | notFound
  | bulkCreated (n : Nat)
  | deleted
  | deletedAll (n : Nat)
  | statistics (s : StatsResponse)
  | convs (l : List Conversation)
deriving DecidableEq, Repr

/-- Dispatch of one request to the matching handler of src/main.py, returning
the table state after the handler ran and the reply payload at the
query/commit stage. Handlers that only run SELECT statements leave the table
as it was; `create`, `bulk`, `delete` and `delete all` commit their writes.
Response-dict building and the AttributeError it raises (see the
`*_response` functions) happen after the state effect and do not change the
table. -/
def handle (db : DB) (now : String) : ApiRequest → DB × ApiReply
  | .listMessages limit offset type unread =>
      (db, .messages (get_messages db limit offset type unread))
  | .createOne req =>
      let res := create_message db (parseRequest req) now
      (res.2, .message res.1)
  | .createBulk reqs =>
      let res := create_messages_bulk db (reqs.map parseRequest) now
      (res.1, .bulkCreated res.2)
  | .getOne message_id =>
      (db, match get_message db message_id with
           | some r => .message r
           | none => .notFound)
  | .deleteOne message_id =>
      let res := delete_message db message_id
      (res.1, if res.2 = 0 then .notFound else .deleted)
  | .deleteAll =>
      let res := delete_all_messages db
      (res.1, .deletedAll res.2)
  | .stats => (db, .statistics (get_statistics db))
  | .conversations => (db, .convs (get_conversations db))
  | .conversation address => (db, .messages (get_conversation db address))

/-- The requests whose handlers execute only SELECT statements. -/
def ApiRequest.isRead : ApiRequest → Bool
  | .listMessages _ _ _ _ => true
  | .getOne _ => true
  | .stats => true
  | .conversations => true
  | .conversation _ => true
  | _ => false

/-! ### Concrete fixtures -/

/-- A creation request whose `read` field is omitted. -/
def reqEx : SmsCreateRequest :=
  { address := "+15551234567", body := "hello", date := 1000, read := none,
    type := 1, device_id := "dev1" }

/-- A creation request with direction value 3, outside the documented
enumeration 1/2. -/
def reqDir3 : SmsCreateRequest :=
  { address := "+15550000000", body := "odd", date := 0, read := some false,
    type := 3, device_id := "dev1" }

def rowA1 : Row :=
  { id := 1, address := "A", body := "m1", date := 1, read := false, type := 1,
    device_id := "d", created_at := "t1" }

def rowA2 : Row :=
  { id := 2, address := "A", body := "m2", date := 5, read := true, type := 2,
    device_id := "d", created_at := "t2" }

def rowB3 : Row :=
  { id := 3, address := "B", body := "m3", date := 3, read := false, type := 1,
    device_id := "d", created_at := "t3" }

/-- A small populated table: two messages for address A, one for B. -/
def dbEx : DB := { rows := [rowA1, rowA2, rowB3], nextId := 4 }

/-- A parsed message used in bulk-insert witnesses. -/
def msgEx : SmsMessage :=
  { address := "C", body := "bulk", date := 7, read := false, type := 2,
    device_id := "dev2" }

/-- A pre-migration stored row: no `device_id` column yet. -/
def fileRowEx : FileRow :=
  { id := 1, address := "A", body := "m1", date := 1, read := false, type := 1,
    created_at := "t1", device_id := none }

/-- A pre-existing database file whose schema lacks `device_id`. -/
def fileEx : DBFile :=
  { table_exists := true, has_device_id := false, frows := [fileRowEx] }

/-! ### Helper lemmas -/

theorem exists_maxDate_mem : ∀ l : List Row, l ≠ [] → ∃ r ∈ l, maxDate l = r.date
  | [], h => absurd rfl h
  | [r], _ => ⟨r, List.mem_singleton_self r, rfl⟩
  | r :: s :: rest, _ => by
    have hco : maxDate (r :: s :: rest) = max r.date (maxDate (s :: rest)) := rfl
    rcases le_total (maxDate (s :: rest)) r.date with h | h
    · exact ⟨r, List.mem_cons_self _ _, by rw [hco, max_eq_left h]⟩
    · obtain ⟨t, ht, hmax⟩ := exists_maxDate_mem (s :: rest) (by simp)
      exact ⟨t, List.mem_cons_of_mem _ ht, by rw [hco, max_eq_right h, hmax]⟩

theorem date_le_maxDate : ∀ (l : List Row) (r : Row), r ∈ l → r.date ≤ maxDate l
  | [], r, hr => absurd hr (List.not_mem_nil r)
  | [s], r, hr => by
    rcases List.mem_singleton.mp hr with rfl
    exact le_refl _
  | s :: t :: rest, r, hr => by
    rcases List.mem_cons.mp hr with rfl | hmem
    · exact le_max_left _ _
    · exact le_trans (date_le_maxDate (t :: rest) r hmem) (le_max_right _ _)

theorem bulk_foldl_rows (now : String) :
    ∀ (msgs : List SmsMessage) (db : DB),
      (msgs.foldl (fun d m => (insert_row d m now).2) db).rows.length
        = db.rows.length + msgs.length
  | [], db => by simp
  | m :: ms, db => by
    have ih := bulk_foldl_rows now ms (insert_row db m now).2
    rw [List.foldl_cons, ih]
    simp [insert_row]
    omega

theorem dbEx_wf : dbEx.WF := ⟨by decide, by decide⟩

/-- The response loop completes only on an empty fetch: on any non-empty row
list the first dict construction raises AttributeError. -/
theorem buildResponses_empty_or_error (l : List Row) :
    buildResponses l = Except.ok [] ∨
    buildResponses l = Except.error PyError.attributeError := by
  cases l with
  | nil => exact Or.inl rfl
  | cons r rest => exact Or.inr rfl

/-- Deleting by an id that occurs in a table with strictly increasing ids
removes exactly one row. -/
theorem filter_ne_length :
    ∀ l : List Row, l.Pairwise (fun a b => a.id < b.id) →
      ∀ mid : Nat, (∃ r ∈ l, r.id = mid) →
        (l.filter (fun r => r.id != mid)).length + 1 = l.length
  | [], _, mid, h => by simp at h
  | r :: rest, hnd, mid, h => by
    obtain ⟨hlt, hnd'⟩ := List.pairwise_cons.mp hnd
    by_cases hr : r.id = mid
    · have hkeep : rest.filter (fun r' => r'.id != mid) = rest := by
        rw [List.filter_eq_self]
        intro b hb
        simp only [bne_iff_ne, ne_eq]
        exact fun hbe => absurd (hr ▸ hbe ▸ hlt b hb) (lt_irrefl _)
      simp [List.filter_cons, hr, hkeep]
    · have hrest : ∃ r' ∈ rest, r'.id = mid := by
        obtain ⟨t, ht, htid⟩ := h
        rcases List.mem_cons.mp ht with rfl | htm
        · exact absurd htid hr
        · exact ⟨t, htm, htid⟩
      have ih := filter_ne_length rest hnd' mid hrest
      simp [List.filter_cons, hr, ← ih]

theorem bulk_foldl_types (now : String) :
    ∀ (msgs : List SmsMessage) (db : DB),
      (msgs.foldl (fun d m => (insert_row d m now).2) db).rows.map Row.type
        = db.rows.map Row.type ++ msgs.map SmsMessage.type
  | [], db => by simp
  | m :: ms, db => by
    have ih := bulk_foldl_types now ms (insert_row db m now).2
    rw [List.foldl_cons, ih]
    simp [insert_row, List.append_assoc]

/-! ### Claim theorems -/

/-- C1 (code bug): the claim states the documented create/get contract, but
the code never delivers it. Creating a valid message (read omitted) against
the empty store commits exactly one row with id 1, yet the create handler's
response raises AttributeError (`row.get` at src/main.py line 620) and the
get handler on the now-existing id 1 raises the same way (line 659): the
caller receives HTTP 500 in both cases, never the Message. Only the
NotFound branch of get answers without error. -/
theorem create_get_crash :
    (create_message_response emptyDB (parseRequest reqEx) "ts").2.rows.map Row.id
      = [1] ∧
    (create_message_response emptyDB (parseRequest reqEx) "ts").1
      = Except.error PyError.attributeError ∧
    get_message_response
        (create_message_response emptyDB (parseRequest reqEx) "ts").2 1
      = Except.error PyError.attributeError ∧
    get_message_response emptyDB 1 = Except.ok none :=
  ⟨rfl, rfl, rfl, rfl⟩

/-- C2 counterexample: a creation request with direction 3 is not rejected:
after creating it against the empty store, exactly one row is stored and its
direction is 3, so a direction outside {1, 2} is accepted and a row is stored
for it. -/
theorem direction_counterexample :
    ((create_message emptyDB (parseRequest reqDir3) "ts").2.rows.map Row.type)
      = [3] := rfl

/-- C2 (amended): the direction field of a creation request (single or bulk)
is an arbitrary integer: no value is rejected, every request stores its rows,
and each stored row carries the submitted direction value unchanged; the code
performs no validation of the direction beyond it being an integer. -/
theorem direction_any_int_accepted (db : DB) (m : SmsMessage) (now : String)
    (msgs : List SmsMessage) :
    (create_message db m now).2.rows.length = db.rows.length + 1 ∧
    (create_message db m now).1.type = m.type ∧
    ((create_message db m now).2.rows.map Row.type)
      = db.rows.map Row.type ++ [m.type] ∧
    (create_messages_bulk db msgs now).1.rows.length
      = db.rows.length + msgs.length ∧
    ((create_messages_bulk db msgs now).1.rows.map Row.type)
      = db.rows.map Row.type ++ msgs.map SmsMessage.type := by
  refine ⟨by simp [create_message, insert_row], rfl,
    by simp [create_message, insert_row], ?_, ?_⟩
  · exact bulk_foldl_rows now msgs db
  · exact bulk_foldl_types now msgs db

/-- Witness for the amended C2: the direction-3 request is stored with
direction 3 by the single create, and a bulk insert grows the table by its
batch size. -/
theorem direction_any_int_accepted_witness :
    (create_message dbEx (parseRequest reqDir3) "ts").1.type = 3 ∧
    (create_messages_bulk dbEx [msgEx] "ts").1.rows.length
      = dbEx.rows.length + 1 :=
  ⟨(direction_any_int_accepted dbEx (parseRequest reqDir3) "ts" [msgEx]).2.1,
    (direction_any_int_accepted dbEx (parseRequest reqDir3) "ts" [msgEx]).2.2.2.1⟩

/-- C7: `createBulk` of n messages returns the count n; on success the total
reported by stats grows by exactly n, and on a storage fault before the
single commit the persisted table, and hence stats, is unchanged. -/
theorem bulk_atomicity (db : DB) (msgs : List SmsMessage) (now : String) :
    (create_messages_bulk db msgs now).2 = msgs.length ∧
    (get_statistics (create_messages_bulk db msgs now).1).total_messages
      = (get_statistics db).total_messages + msgs.length ∧
    get_statistics (create_messages_bulk_fault db msgs) = get_statistics db := by
  exact ⟨rfl, bulk_foldl_rows now msgs db, rfl⟩

/-- Witness for C7 with a one-message batch against the populated store. -/
theorem bulk_atomicity_witness :
    (get_statistics (create_messages_bulk dbEx [msgEx] "ts").1).total_messages
      = (get_statistics dbEx).total_messages + 1 :=
  (bulk_atomicity dbEx [msgEx] "ts").2.1

/-- C10: every read-only request (list, get, stats, conversations,
conversation) leaves the stored message collection unchanged: the table state
after the handler equals the state before it. -/
theorem read_requests_preserve_state (db : DB) (now : String)
    (req : ApiRequest) (h : req.isRead = true) : (handle db now req).1 = db := by
  cases req with
  | listMessages limit offset type unread => rfl
  | getOne message_id => rfl
  | stats => rfl
  | conversations => rfl
  | conversation address => rfl
  | createOne r => simp [ApiRequest.isRead] at h
  | createBulk rs => simp [ApiRequest.isRead] at h
  | deleteOne i => simp [ApiRequest.isRead] at h
  | deleteAll => simp [ApiRequest.isRead] at h

/-- Witness for C10: the stats request is a read and leaves the populated
store unchanged. -/
theorem read_requests_preserve_state_witness :
    ApiRequest.stats.isRead = true ∧ (handle dbEx "ts" ApiRequest.stats).1 = dbEx :=
  ⟨rfl, read_requests_preserve_state dbEx "ts" ApiRequest.stats rfl⟩

/-- C4 (code bug): the claim describes the ordering of the sequence the list
endpoint returns, but the handler never returns a non-empty sequence: for
every store state, filter and window it either returns the empty list (empty
result set) or raises AttributeError building the first response row
(`row.get` at src/main.py line 589) — in particular the default list call on
a populated store crashes instead of delivering the timestamp-descending
sequence. -/
theorem list_ordering_crash (db : DB) (limit offset : Int) (type : Option Int)
    (unread : Option Bool) :
    (get_messages_response db limit offset type unread = Except.ok [] ∨
     get_messages_response db limit offset type unread
       = Except.error PyError.attributeError) ∧
    get_messages_response dbEx 100 0 none none
      = Except.error PyError.attributeError :=
  ⟨buildResponses_empty_or_error _, rfl⟩

/-- C5 (code bug): the claim describes which messages the filtered list
returns, but the handler delivers a filtered sequence only when it is empty:
with both filters active it returns the empty list or raises AttributeError
(src/main.py line 589), and on the populated store the direction filter and
the unread filter each crash while the empty intersection (direction 2 AND
unread) is the only outcome it reports. -/
theorem list_filter_crash (db : DB) (limit offset : Int) (d : Int) (u : Bool) :
    (get_messages_response db limit offset (some d) (some u) = Except.ok [] ∨
     get_messages_response db limit offset (some d) (some u)
       = Except.error PyError.attributeError) ∧
    get_messages_response dbEx 100 0 (some 1) none
      = Except.error PyError.attributeError ∧
    get_messages_response dbEx 100 0 none (some true)
      = Except.error PyError.attributeError ∧
    get_messages_response dbEx 100 0 (some 2) (some true) = Except.ok [] :=
  ⟨buildResponses_empty_or_error _, rfl, rfl, rfl⟩

/-- C6 (code bug): the claim describes the ascending thread the conversation
endpoint returns, but the handler delivers a thread only when it is empty:
for every store state and address it returns the empty list or raises
AttributeError building the first response row (`row.get` at src/main.py
line 767) — an address with messages crashes with HTTP 500, and only the
unknown-address case (empty sequence, not an error) behaves as claimed. -/
theorem conversation_thread_crash (db : DB) (address : String) :
    (get_conversation_response db address = Except.ok [] ∨
     get_conversation_response db address
       = Except.error PyError.attributeError) ∧
    get_conversation_response dbEx "A" = Except.error PyError.attributeError ∧
    get_conversation_response dbEx "Z" = Except.ok [] :=
  ⟨buildResponses_empty_or_error _, rfl, rfl⟩

/-- C3: listConversations yields exactly one Conversation per distinct
address occurring in the store (never an empty group), each carrying that
address, the maximum timestamp among its messages, its total message count
and its count of unread messages, and the sequence is ordered by
last_message_date descending. -/
theorem conversations_grouping (db : DB) :
    ((get_conversations db).map Conversation.address).Nodup ∧
    (∀ a : String, a ∈ (get_conversations db).map Conversation.address ↔
      ∃ r ∈ db.rows, r.address = a) ∧
    (∀ c ∈ get_conversations db,
      c.message_count
        = (db.rows.filter (fun r => r.address == c.address)).length ∧
      0 < c.message_count ∧
      c.unread_count
        = (db.rows.filter (fun r => r.address == c.address)).countP
            (fun r => r.read == false) ∧
      (∃ r ∈ db.rows, r.address = c.address ∧ r.date = c.last_message_date) ∧
      (∀ r ∈ db.rows, r.address = c.address → r.date ≤ c.last_message_date)) ∧
    (get_conversations db).Pairwise
      (fun c₁ c₂ => c₂.last_message_date ≤ c₁.last_message_date) := by
  have hperm : (get_conversations db).Perm
      ((db.rows.map Row.address).dedup.map (convOf db)) :=
    List.perm_insertionSort convLe _
  have hfun : (Conversation.address ∘ convOf db) = fun a => a := rfl
  have hpermaddr : ((get_conversations db).map Conversation.address).Perm
      ((db.rows.map Row.address).dedup) := by
    have h2 := hperm.map Conversation.address
    rwa [List.map_map, hfun, List.map_id'] at h2
  refine ⟨?_, ?_, ?_, ?_⟩
  · exact hpermaddr.nodup_iff.mpr (List.nodup_dedup _)
  · intro a
    rw [hpermaddr.mem_iff, List.mem_dedup, List.mem_map]
  · intro c hc
    obtain ⟨a, ha, rfl⟩ := List.mem_map.mp (hperm.mem_iff.mp hc)
    have hane : ∃ r ∈ db.rows, r.address = a := by
      rw [List.mem_dedup, List.mem_map] at ha
      exact ha
    obtain ⟨r0, hr0, hr0a⟩ := hane
    have hr0f : r0 ∈ db.rows.filter (fun r => r.address == a) :=
      List.mem_filter.mpr ⟨hr0, by simp [hr0a]⟩
    refine ⟨rfl, ?_, rfl, ?_, ?_⟩
    · exact List.length_pos_of_mem hr0f
    · obtain ⟨t, ht, hmax⟩ := exists_maxDate_mem _ (List.ne_nil_of_mem hr0f)
      have htf := List.mem_filter.mp ht
      refine ⟨t, htf.1, ?_, hmax.symm⟩
      show t.address = a
      simpa using htf.2
    · intro r hr hra
      have hra' : r.address = a := hra
      exact date_le_maxDate _ r (List.mem_filter.mpr ⟨hr, by simp [hra']⟩)
  · exact (List.sorted_insertionSort convLe _).imp (fun h => h)

/-- Witness for C3: the conversation addresses computed from the populated
store are pairwise distinct. -/
theorem conversations_grouping_witness :
    ((get_conversations dbEx).map Conversation.address).Nodup :=
  (conversations_grouping dbEx).1

/-- C8: deleting a nonexistent id reports NotFound (rowcount 0) and leaves
the collection completely unchanged; deleting an existing id removes exactly
that one row — rowcount 1, the remaining rows are a subsequence of the
original, every other row survives, nothing new appears — and a subsequent
get of that id reports NotFound. -/
theorem delete_semantics (db : DB) (mid : Nat) (hwf : db.WF) :
    ((∀ r ∈ db.rows, r.id ≠ mid) →
      (delete_message db mid).2 = 0 ∧ (delete_message db mid).1 = db) ∧
    ((∃ r ∈ db.rows, r.id = mid) →
      (delete_message db mid).2 = 1 ∧
      (delete_message db mid).1.rows.Sublist db.rows ∧
      (∀ r ∈ db.rows, r.id ≠ mid → r ∈ (delete_message db mid).1.rows) ∧
      (∀ r ∈ (delete_message db mid).1.rows, r ∈ db.rows ∧ r.id ≠ mid) ∧
      get_message (delete_message db mid).1 mid = none) := by
  obtain ⟨hpw, -⟩ := hwf
  constructor
  · intro h
    have hfe : db.rows.filter (fun r => r.id != mid) = db.rows := by
      rw [List.filter_eq_self]
      intro r hr
      simpa using h r hr
    constructor
    · show db.rows.length - (db.rows.filter (fun r => r.id != mid)).length = 0
      rw [hfe]
      omega
    · show ({ db with rows := db.rows.filter (fun r => r.id != mid) } : DB) = db
      rw [hfe]
  · intro h
    have hlen := filter_ne_length db.rows hpw mid h
    refine ⟨?_, List.filter_sublist _, ?_, ?_, ?_⟩
    · show db.rows.length - (db.rows.filter (fun r => r.id != mid)).length = 1
      omega
    · intro r hr hne
      exact List.mem_filter.mpr ⟨hr, by simpa using hne⟩
    · intro r hr
      have hm := List.mem_filter.mp hr
      exact ⟨hm.1, by simpa using hm.2⟩
    · show (db.rows.filter (fun r => r.id != mid)).find?
        (fun r => r.id == mid) = none
      rw [List.find?_eq_none]
      intro r hr
      have hm := (List.mem_filter.mp hr).2
      simpa using hm

/-- Witness for C8: deleting id 3 from the populated store removes exactly
one row and get on id 3 then reports NotFound. -/
theorem delete_semantics_witness :
    dbEx.WF ∧ (delete_message dbEx 3).2 = 1 ∧
    get_message (delete_message dbEx 3).1 3 = none :=
  ⟨dbEx_wf,
    ((delete_semantics dbEx 3 dbEx_wf).2 ⟨rowB3, by decide, rfl⟩).1,
    ((delete_semantics dbEx 3 dbEx_wf).2 ⟨rowB3, by decide, rfl⟩).2.2.2.2⟩

/-- C9: initializing a pre-existing table whose rows lack the device_id
column leaves every row present exactly once — same rows, same ids, in the
same order — with `device_id` set to the sentinel "unknown", and running the
initialization again is a no-op. -/
theorem migration_semantics (f : DBFile) (hex : f.table_exists = true)
    (hno : f.has_device_id = false) :
    (init_db f).frows
      = f.frows.map (fun r => { r with device_id := some "unknown" }) ∧
    (init_db f).frows.map FileRow.id = f.frows.map FileRow.id ∧
    (∀ r ∈ (init_db f).frows, r.device_id = some "unknown") ∧
    init_db (init_db f) = init_db f := by
  have h1 : init_db f =
      { f with
        has_device_id := true
        frows := f.frows.map (fun r => { r with device_id := some "unknown" }) } := by
    unfold init_db
    simp [hex, hno]
  refine ⟨?_, ?_, ?_, ?_⟩
  · rw [h1]
  · rw [h1]
    show (f.frows.map (fun r => { r with device_id := some "unknown" })).map
      FileRow.id = f.frows.map FileRow.id
    rw [List.map_map]
    exact rfl
  · rw [h1]
    intro r hr
    obtain ⟨r0, -, rfl⟩ := List.mem_map.mp hr
    rfl
  · rw [h1]
    unfold init_db
    simp [hex]

/-- Witness for C9 on a concrete one-row pre-migration file. -/
theorem migration_semantics_witness :
    fileEx.table_exists = true ∧ fileEx.has_device_id = false ∧
    (∀ r ∈ (init_db fileEx).frows, r.device_id = some "unknown") :=
  ⟨rfl, rfl, (migration_semantics fileEx rfl rfl).2.2.1⟩

end SmsServer
